import Mathlib

/-!
Verification of the ChargeGuard battery-alarm application.

The source is a single React component (`App`) plus type declarations.
Numbers are modelled as exact rationals (`ℚ`); `Math.round` is Mathlib's
`round` (both round half away from zero toward positive infinity for the
inputs involved).  The special JavaScript value `Infinity`, used by the
charging-time display as a sentinel, is modelled by a dedicated
constructor of `JSNum`.
-/

namespace ChargeGuard

/-- Embedding of `Math.round(level * 100)` — the derived `batteryPercent` value
(`part_000`, line 19). -/
def batteryPercent (level : ℚ) : ℤ := round (level * 100)

/-- Embedding of `batteryPercent >= threshold` — the derived `isThresholdReached`
value (`part_000`, line 20). -/
def isThresholdReached (level : ℚ) (threshold : ℤ) : Bool :=
  decide (threshold ≤ batteryPercent level)

/-- The `shouldAlarm` boolean computed inside the alarm effect
(`part_000`, lines 40–45):
`supported && charging && isThresholdReached && isAlarmEnabled && hasInteracted`. -/
def shouldAlarm (supported charging : Bool) (level : ℚ) (threshold : ℤ)
    (isAlarmEnabled hasInteracted : Bool) : Bool :=
  supported && charging && isThresholdReached level threshold
    && isAlarmEnabled && hasInteracted

/-- C1: `AlarmActive` (the value `setIsAlarmActive` receives on each
recomputation, which is exactly `shouldAlarm`) is true iff
supported ∧ charging ∧ round(level×100) ≥ threshold ∧ enabled ∧ granted;
and at supported=charging=enabled=granted=true, threshold=80,
levelFraction=0.79 it is false. -/
theorem alarm_predicate_characterization :
    (∀ (supported charging isAlarmEnabled hasInteracted : Bool)
       (level : ℚ) (threshold : ℤ),
      shouldAlarm supported charging level threshold isAlarmEnabled hasInteracted = true ↔
        (supported = true ∧ charging = true ∧ threshold ≤ round (level * 100) ∧
          isAlarmEnabled = true ∧ hasInteracted = true))
    ∧ shouldAlarm true true (79/100) 80 true true = false := by
  constructor
  · intro supported charging isAlarmEnabled hasInteracted level threshold
    simp [shouldAlarm, isThresholdReached, batteryPercent, and_assoc]
  · norm_num [shouldAlarm, isThresholdReached, batteryPercent]

/-! ## The alarm effect and its dependency array

The alarm effect (`part_000`, lines 32–60) re-runs exactly when one entry of
its dependency array `[supported, charging, isThresholdReached,
isAlarmEnabled, hasInteracted]` changed since the previous render, and on
every run it recomputes `shouldAlarm`, stores it via `setIsAlarmActive`, and
unconditionally calls `alarmSound.start()` when it is true and
`alarmSound.stop()` when it is false.  A session is modelled as the list of
dependency snapshots seen at successive renders. -/

/-- One snapshot of the alarm effect's dependency array. -/
structure Deps where
  supported : Bool
  charging : Bool
  thresholdReached : Bool
  isAlarmEnabled : Bool
  hasInteracted : Bool
deriving DecidableEq

/-- The dependency snapshot produced by the derived values of `App` for
given raw inputs. -/
def depsOf (supported charging : Bool) (level : ℚ) (threshold : ℤ)
    (isAlarmEnabled hasInteracted : Bool) : Deps :=
  ⟨supported, charging, isThresholdReached level threshold,
    isAlarmEnabled, hasInteracted⟩

/-- The `shouldAlarm` value as recomputed by the effect from its dependency snapshot. -/
def effectPredicate (d : Deps) : Bool :=
  d.supported && d.charging && d.thresholdReached
    && d.isAlarmEnabled && d.hasInteracted

/-- A call issued to the alarm sound unit. -/
inductive SoundCall where
  | start
  | stop
deriving DecidableEq

/-- The single call the effect body makes on a run
(`part_000`, lines 51–55): `start()` when `shouldAlarm`, else `stop()`. -/
def runCall (d : Deps) : SoundCall :=
  if effectPredicate d then SoundCall.start else SoundCall.stop

/-- Calls made by the effect over the renders after the first: the effect
re-runs exactly when the dependency snapshot differs from the previous one. -/
def effectTail (prev : Deps) : List Deps → List SoundCall
  | [] => []
  | d :: ds => if d = prev then effectTail d ds else runCall d :: effectTail d ds

/-- All calls of a session: the mount run plus the runs at later renders
whose dependencies changed. -/
def effectCalls (d0 : Deps) (ds : List Deps) : List SoundCall :=
  runCall d0 :: effectTail d0 ds

/-- The `isAlarmActive` React state after the session: the value stored by
`setIsAlarmActive` at the most recent effect run, which equals the predicate
of the last snapshot (runs are skipped only when the snapshot is unchanged). -/
def lastDeps (d : Deps) : List Deps → Deps
  | [] => d
  | x :: xs => lastDeps x xs

/-- Modelled from the spec: the Alarm Signal (`components/AlarmSound`, not
under `src/`); per §4.3 its internal state is exactly `{running : bool}` and
`start`/`stop` are idempotent. -/
structure AlarmSignal where
  running : Bool
deriving DecidableEq

/-- Modelled from the spec (§4.3): `start()` is a no-op when already
running, otherwise begins the sound. -/
def AlarmSignal.start (s : AlarmSignal) : AlarmSignal :=
  if s.running then s else ⟨true⟩

/-- Modelled from the spec (§4.3): `stop()` is a no-op when already
stopped, otherwise stops the sound. -/
def AlarmSignal.stop (s : AlarmSignal) : AlarmSignal :=
  if s.running then ⟨false⟩ else s

/-- Deliver one call to the alarm sound unit. -/
def applyCall (s : AlarmSignal) : SoundCall → AlarmSignal
  | SoundCall.start => s.start
  | SoundCall.stop => s.stop

lemma applyCall_runCall_running (s : AlarmSignal) (d : Deps) :
    (applyCall s (runCall d)).running = effectPredicate d := by
  cases h : effectPredicate d <;>
    simp [runCall, h, applyCall, AlarmSignal.start, AlarmSignal.stop] <;>
    split <;> simp_all

lemma effectTail_running (ds : List Deps) :
    ∀ (prev : Deps) (s : AlarmSignal), s.running = effectPredicate prev →
      (List.foldl applyCall s (effectTail prev ds)).running =
        effectPredicate (lastDeps prev ds) := by
  induction ds with
  | nil => intro prev s h; simpa [effectTail, lastDeps] using h
  | cons d ds ih =>
      intro prev s h
      by_cases hd : d = prev
      · rw [effectTail, if_pos hd, lastDeps]
        exact ih d s (by rw [hd]; exact h)
      · rw [effectTail, if_neg hd, lastDeps]
        simpa using ih d (applyCall s (runCall d)) (applyCall_runCall_running s d)

/-- Concrete dependency snapshots.  `depsNotChargingLow` and
`depsChargingLow` differ only in `charging` while the predicate is false in
both (level 0.79 keeps `isThresholdReached` false at threshold 80). -/
def depsNotChargingLow : Deps := depsOf true false (79/100) 80 true true

/-- Snapshot with charging true but level still below the threshold. -/
def depsChargingLow : Deps := depsOf true true (79/100) 80 true true

lemma thresholdReached_79_80 : isThresholdReached (79/100) 80 = false := by
  norm_num [isThresholdReached, batteryPercent]

lemma thresholdReached_80_80 : isThresholdReached (80/100) 80 = true := by
  norm_num [isThresholdReached, batteryPercent]

/-- C2 counterexample: flipping `charging` from false to true while the level
stays below the threshold changes the dependency array, so the effect
re-runs; the predicate is false both before and after, yet the run still
calls `stop()` — the code makes a (redundant, idempotent) call on every
re-run, it never compares against the previous predicate value. -/
theorem redundant_call_on_unchanged_pred :
    effectPredicate depsChargingLow = effectPredicate depsNotChargingLow ∧
    depsChargingLow ≠ depsNotChargingLow ∧
    effectTail depsNotChargingLow [depsChargingLow] = [SoundCall.stop] := by
  refine ⟨?_, ?_, ?_⟩ <;>
    simp [depsChargingLow, depsNotChargingLow, depsOf, effectPredicate,
      thresholdReached_79_80, effectTail, runCall]

/-- C2 (amended): on every effect re-run triggered by a dependency change,
exactly one call is made regardless of whether the predicate changed —
`start()` when the recomputed predicate is true, `stop()` when it is false;
redundancy is absorbed by the signal's idempotence. -/
theorem recomputation_always_calls (prev d : Deps) (h : d ≠ prev) :
    effectTail prev [d] =
      [if effectPredicate d then SoundCall.start else SoundCall.stop] := by
  simp [effectTail, h, runCall]

/-- Witness for `recomputation_always_calls` at a concrete changed snapshot. -/
theorem recomputation_always_calls_witness :
    effectTail depsNotChargingLow [depsChargingLow] =
      [if effectPredicate depsChargingLow then SoundCall.start
        else SoundCall.stop] :=
  recomputation_always_calls depsNotChargingLow depsChargingLow
    (by simp [depsChargingLow, depsNotChargingLow, depsOf])

/-- C3: after any session (mount run plus any sequence of renders), the
Alarm Signal's running state equals the `shouldAlarm` value most recently
computed and stored by `setIsAlarmActive`, whatever the signal's initial
state: the signal and the derived boolean never drift apart. -/
theorem signal_running_eq_alarm_active (s0 : AlarmSignal) (d0 : Deps)
    (ds : List Deps) :
    (List.foldl applyCall s0 (effectCalls d0 ds)).running =
      effectPredicate (lastDeps d0 ds) := by
  have h := effectTail_running ds d0 (applyCall s0 (runCall d0))
    (applyCall_runCall_running s0 d0)
  simpa [effectCalls] using h

lemma effectTail_no_start (ds : List Deps) :
    ∀ prev : Deps, (∀ d ∈ ds, effectPredicate d = false) →
      SoundCall.start ∉ effectTail prev ds := by
  induction ds with
  | nil => intro prev _; simp [effectTail]
  | cons d ds ih =>
      intro prev h
      have hd : effectPredicate d = false := h d (by simp)
      have hrest : ∀ x ∈ ds, effectPredicate x = false := fun x hx => h x (by simp [hx])
      by_cases hdp : d = prev
      · rw [effectTail, if_pos hdp]; exact ih d hrest
      · rw [effectTail, if_neg hdp]
        simpa [runCall, hd] using ih d hrest

/-- Scenario A snapshot: charging at 79% with threshold 80%. -/
def depsScenarioA : Deps := depsOf true true (79/100) 80 true true

/-- Scenario B snapshot: level has risen to 0.80. -/
def depsScenarioB : Deps := depsOf true true (80/100) 80 true true

/-- Scenario C snapshot: charging has flipped to false. -/
def depsScenarioC : Deps := depsOf true false (80/100) 80 true true

/-- C4: from the Scenario A state (predicate false), raising the level to
0.80 makes the predicate true and the re-run issues `start()` exactly once;
flipping charging to false then issues `stop()` exactly once; and no further
`start()` occurs over any continuation whose snapshots all evaluate the
predicate false. -/
theorem scenario_rise_then_unplug :
    effectPredicate depsScenarioA = false ∧
    effectPredicate depsScenarioB = true ∧
    effectTail depsScenarioA [depsScenarioB] = [SoundCall.start] ∧
    effectTail depsScenarioA [depsScenarioB, depsScenarioC] =
      [SoundCall.start, SoundCall.stop] ∧
    (∀ rest : List Deps, (∀ d ∈ rest, effectPredicate d = false) →
      SoundCall.start ∉ effectTail depsScenarioC rest) := by
  refine ⟨?_, ?_, ?_, ?_, fun rest h => effectTail_no_start rest depsScenarioC h⟩ <;>
    simp [depsScenarioA, depsScenarioB, depsScenarioC, depsOf, effectPredicate,
      thresholdReached_79_80, thresholdReached_80_80, effectTail, runCall]

/-- Witness for `scenario_rise_then_unplug`: a concrete continuation in which
the predicate stays false (Scenario A's snapshot) indeed produces no
`start()` call. -/
theorem scenario_rise_then_unplug_witness :
    SoundCall.start ∉ effectTail depsScenarioC [depsScenarioA] :=
  scenario_rise_then_unplug.2.2.2.2 [depsScenarioA]
    (by
      intro d hd
      have hda : d = depsScenarioA := by simpa using hd
      rw [hda]
      exact scenario_rise_then_unplug.1)

/-! ## User-facing state of `App` -/

/-- The user-controlled React state of `App` (`part_000`, lines 13–16):
`threshold`, `isAlarmEnabled` and the one-shot `hasInteracted` flag. -/
structure AppState where
  threshold : ℤ
  isAlarmEnabled : Bool
  hasInteracted : Bool
deriving DecidableEq

/-- The `useState` initial values (`part_000`, lines 13–16): threshold 80,
alarm enabled, not yet interacted. -/
def initialAppState : AppState := ⟨80, true, false⟩

/-- Embedding of `handleInteraction` (`part_000`, lines 23–27):
`if (!hasInteracted) setHasInteracted(true)`. -/
def handleInteraction (s : AppState) : AppState :=
  if !s.hasInteracted then { s with hasInteracted := true } else s

/-- A user input delivered to `App`: a tap anywhere (the `onClick`
handler), or a settings-panel update via `setThreshold` /
`setAlarmEnabled`. -/
inductive UserEvent where
  | tap
  | setThreshold (n : ℤ)
  | setAlarmEnabled (b : Bool)

/-- Effect of one user input on the `App` state. -/
def userStep (s : AppState) : UserEvent → AppState
  | UserEvent.tap => handleInteraction s
  | UserEvent.setThreshold n => { s with threshold := n }
  | UserEvent.setAlarmEnabled b => { s with isAlarmEnabled := b }

/-- C5: `hasInteracted` starts false, a tap sets it true, and once true it
remains true under every subsequent sequence of user inputs — no operation
ever resets it. -/
theorem interaction_gate_monotone :
    initialAppState.hasInteracted = false ∧
    (∀ s : AppState, (userStep s UserEvent.tap).hasInteracted = true) ∧
    (∀ (s : AppState) (es : List UserEvent), s.hasInteracted = true →
      (List.foldl userStep s es).hasInteracted = true) := by
  refine ⟨rfl, ?_, ?_⟩
  · intro s
    by_cases h : s.hasInteracted <;> simp [userStep, handleInteraction, h]
  · intro s es
    induction es generalizing s with
    | nil => intro h; simpa using h
    | cons e es ih =>
        intro h
        rw [List.foldl_cons]
        apply ih
        cases e <;> simp [userStep, handleInteraction, h]

/-- Witness for `interaction_gate_monotone`: a concrete session — tap, then
disable the alarm and move the threshold — ends with `hasInteracted` true. -/
theorem interaction_gate_monotone_witness :
    (List.foldl userStep (userStep initialAppState UserEvent.tap)
      [UserEvent.setAlarmEnabled false, UserEvent.setThreshold 50]).hasInteracted
      = true :=
  interaction_gate_monotone.2.2 _ _
    (interaction_gate_monotone.2.1 initialAppState)

/-! ## Unmount cleanup -/

/-- The cleanup returned by the unmount-only effect
(`part_000`, lines 63–67): `() => alarmSound.stop()` — no condition on any
state. -/
def unmountCleanup (s : AlarmSignal) : AlarmSignal := s.stop

/-- C6: on unmount the cleanup stops the signal unconditionally: whatever
the signal's state (Idle or Alarming) and whatever session of recomputations
preceded, after the cleanup the signal is not running. -/
theorem unmount_cleanup_stops (s0 : AlarmSignal) (d0 : Deps) (ds : List Deps) :
    (∀ s : AlarmSignal, (unmountCleanup s).running = false) ∧
    (unmountCleanup (List.foldl applyCall s0 (effectCalls d0 ds))).running
      = false := by
  have hstop : ∀ s : AlarmSignal, (unmountCleanup s).running = false := by
    intro s
    by_cases h : s.running <;> simp [unmountCleanup, AlarmSignal.stop, h]
  exact ⟨hstop, hstop _⟩

/-! ## Power Source Monitor and the unsupported mode -/

/-- A JavaScript `number` as used for `chargingTime`: either a finite value
or the `Infinity` sentinel the Battery API reports when the remaining time
is unknown (`types.ts` declares `chargingTime: number` — there is no
separate tagged "unknown" case in the source). -/
inductive JSNum where
  | finite (q : ℚ)
  | infinity
deriving DecidableEq

/-- The state published by the `useBattery` hook
(`part_000`, line 9 destructures `{ supported, loading, level, charging,
chargingTime }`). -/
structure BatteryState where
  supported : Bool
  loading : Bool
  level : ℚ
  charging : Bool
  chargingTime : JSNum
deriving DecidableEq

/-- Modelled from the spec: the `useBattery` hook (Power Source Monitor,
§4.1) is not under `src/`.  When the power-status facility is unavailable
the monitor publishes supported=false, loading=false and safe defaults
(level 0, not charging), permanently for the session. -/
def batteryInitUnavailable : BatteryState :=
  ⟨false, false, 0, false, JSNum.infinity⟩

/-- A host-reported battery change notification (§4.1: charging-flag,
charging-time, discharging-time and level change events). -/
inductive BatteryEvent where
  | levelChange (q : ℚ)
  | chargingChange (b : Bool)
  | chargingTimeChange (t : JSNum)
  | dischargingTimeChange

/-- Modelled from the spec (§4.1): change listeners are registered only when
the facility is available, so in the unsupported mode host events leave the
published state unchanged, and `supported` is never modified after
initialization ("a failed acquisition is permanent for the session"). -/
def batteryStep (s : BatteryState) (e : BatteryEvent) : BatteryState :=
  if s.supported then
    match e with
    | BatteryEvent.levelChange q => { s with level := q }
    | BatteryEvent.chargingChange b => { s with charging := b }
    | BatteryEvent.chargingTimeChange t => { s with chargingTime := t }
    | BatteryEvent.dischargingTimeChange => s
  else s

/-- The three top-level render outcomes of `App`. -/
inductive Screen where
  | loadingSpinner
  | unsupportedNotice
  | mainDisplay
deriving DecidableEq

/-- The early returns of `App` (`part_000`, lines 69–87): the loading
spinner while `loading`, then the Battery-API-not-supported notice when
`!supported`, otherwise the main display. -/
def renderScreen (loading supported : Bool) : Screen :=
  if loading then Screen.loadingSpinner
  else if !supported then Screen.unsupportedNotice
  else Screen.mainDisplay

lemma battery_unavailable_fixed (es : List BatteryEvent) :
    List.foldl batteryStep batteryInitUnavailable es = batteryInitUnavailable := by
  induction es with
  | nil => rfl
  | cons e es ih =>
      rw [List.foldl_cons]
      have h : batteryStep batteryInitUnavailable e = batteryInitUnavailable := by
        simp [batteryStep, batteryInitUnavailable]
      rw [h, ih]

/-- C7: when the power-status facility is unavailable, then after any
sequence of host notifications the UI still renders the unsupported-state
notice (not the main display) and `shouldAlarm` is false whatever the
threshold, enabled flag and interaction flag — for the rest of the
session. -/
theorem unsupported_mode_permanent (es : List BatteryEvent) (threshold : ℤ)
    (isAlarmEnabled hasInteracted : Bool) :
    renderScreen (List.foldl batteryStep batteryInitUnavailable es).loading
        (List.foldl batteryStep batteryInitUnavailable es).supported =
      Screen.unsupportedNotice ∧
    shouldAlarm (List.foldl batteryStep batteryInitUnavailable es).supported
        (List.foldl batteryStep batteryInitUnavailable es).charging
        (List.foldl batteryStep batteryInitUnavailable es).level threshold
        isAlarmEnabled hasInteracted = false := by
  rw [battery_unavailable_fixed]
  exact ⟨rfl, by simp [shouldAlarm, batteryInitUnavailable]⟩

/-! ## Charging-time display -/

/-- The remaining-time line (`part_000`, lines 173–177): rendered only when
`charging && chargingTime !== Infinity && chargingTime > 0`, showing
`Math.round(chargingTime / 60)` minutes; `none` models "not rendered". -/
def chargingTimeText (charging : Bool) (chargingTime : JSNum) : Option ℤ :=
  if charging then
    match chargingTime with
    | JSNum.finite q => if 0 < q then some (round (q / 60)) else none
    | JSNum.infinity => none
  else none

/-- C8: the remaining-time text is rendered iff charging is true, the
charging time is not the `Infinity` sentinel, and it is strictly positive;
when rendered it shows `round(chargingTime/60)` minutes. -/
theorem charging_time_text_iff (charging : Bool) (ct : JSNum) (m : ℤ) :
    chargingTimeText charging ct = some m ↔
      (charging = true ∧ ∃ q : ℚ, ct = JSNum.finite q ∧ 0 < q ∧
        m = round (q / 60)) := by
  cases charging <;> cases ct <;> simp [chargingTimeText, eq_comm]

/-! ## Percentage display and status message -/

/-- The percentage text at the center of the ring (`part_000`, line 156):
`{batteryPercent}%`, i.e. the same derived `batteryPercent` the alarm
comparison uses. -/
def centerPercentText (level : ℚ) : ℤ := batteryPercent level

/-- C9: the displayed percentage equals `Math.round(level*100)`, the very
value compared against the threshold: the level condition of the alarm
(`isThresholdReached`, and `shouldAlarm` with every boolean input granted)
holds iff the displayed percentage is at least the displayed threshold. -/
theorem displayed_percent_matches_comparison (level : ℚ) (threshold : ℤ) :
    centerPercentText level = round (level * 100) ∧
    (isThresholdReached level threshold = true ↔
      threshold ≤ centerPercentText level) ∧
    (shouldAlarm true true level threshold true true = true ↔
      threshold ≤ centerPercentText level) := by
  refine ⟨rfl, ?_, ?_⟩ <;>
    simp [isThresholdReached, shouldAlarm, centerPercentText, batteryPercent]

/-- The four mutually exclusive status messages
(`part_000`, lines 182–201). -/
inductive StatusMessage where
  | unplugChargerNow
  | chargeGoalMet
  | alarmSetFor (threshold : ℤ)
  | connectCharger
deriving DecidableEq

/-- The status-message selection (`part_000`, lines 183–200): nested
conditionals `isAlarmActive ? … : charging && isThresholdReached ? … :
charging ? … : …`. -/
def statusMessage (isAlarmActive charging thresholdReached : Bool)
    (threshold : ℤ) : StatusMessage :=
  if isAlarmActive then StatusMessage.unplugChargerNow
  else if charging && thresholdReached then StatusMessage.chargeGoalMet
  else if charging then StatusMessage.alarmSetFor threshold
  else StatusMessage.connectCharger

/-- C10: exactly one status message is selected, by priority — alarm active
first, then goal met, then the alarm-set line, then the connect prompt — and
in particular when charging with the threshold reached but the alarm
predicate false, the UI shows "Charge Goal Met", not the alarm message. -/
theorem status_message_priority (a c t : Bool) (th : ℤ) :
    (statusMessage a c t th = StatusMessage.unplugChargerNow ↔ a = true) ∧
    (statusMessage a c t th = StatusMessage.chargeGoalMet ↔
      (a = false ∧ c = true ∧ t = true)) ∧
    (statusMessage a c t th = StatusMessage.alarmSetFor th ↔
      (a = false ∧ c = true ∧ t = false)) ∧
    (statusMessage a c t th = StatusMessage.connectCharger ↔
      (a = false ∧ c = false)) ∧
    statusMessage false true true th = StatusMessage.chargeGoalMet := by
  cases a <;> cases c <;> cases t <;> simp [statusMessage]

end ChargeGuard
